import Mathlib

/-!
Verification development for the TerraCLIM PowerBI client library.

We give a shallow embedding of the two components the specification singles
out: the response Normalizer (`response_to_dataframe` together with
`handle_error_response` in `src/terraclim/utils.py`) and the
session/authentication component (`TerraCLIMAuth` in `src/terraclim/auth.py`).

Conventions of the embedding:
* JSON values are the inductive `Json`; numeric values are modelled as
  integers (no claim depends on floating point).
* Python dictionaries are association lists `List (String × Json)`; a Python
  `dict` parsed from JSON has no duplicate keys, and `List.lookup` (first
  occurrence) models `dict.get`.
* Python truthiness (`if not x:`) is `pyTruthy`.
* A pandas DataFrame is modelled by the records it was built from
  (`DataFrame.ofRecords`) or, for lists of non-record values, by the raw
  value column (`DataFrame.ofValues`); positional column layout is abstracted.
* Code that may raise is modelled in `Except String`; a `try/except` block
  is the `Except` value being matched by its caller.
-/

inductive Json where
  | null : Json
  | bool (b : Bool) : Json
  | num (n : Int) : Json
  | str (s : String) : Json
  | arr (elems : List Json) : Json
  | obj (fields : List (String × Json)) : Json

/-- Python truthiness of a JSON value: `None`, `False`, `0`, `""`, `[]`, and
the empty dict are falsy, everything else is truthy. -/
def pyTruthy : Json → Bool
  | Json.null => false
  | Json.bool b => b
  | Json.num n => n != 0
  | Json.str s => s != ""
  | Json.arr elems => !elems.isEmpty
  | Json.obj fields => !fields.isEmpty

/-- Truthiness of an optional value (`None` ↦ falsy). -/
def pyTruthyOpt : Option Json → Bool
  | none => false
  | some j => pyTruthy j

mutual

/-- Python `repr()` of a JSON value (containers render their elements with
`repr` as well); used by `str()` on non-string values. -/
def pyRepr : Json → String
  | Json.null => "None"
  | Json.bool true => "True"
  | Json.bool false => "False"
  | Json.num n => toString n
  | Json.str s => "\x27" ++ s ++ "\x27"
  | Json.arr elems => "[" ++ pyReprElems elems ++ "]"
  | Json.obj fields => "\x7b" ++ pyReprFields fields ++ "\x7d"

/-- Comma-separated `repr` of list elements. -/
def pyReprElems : List Json → String
  | [] => ""
  | [x] => pyRepr x
  | x :: rest => pyRepr x ++ ", " ++ pyReprElems rest

/-- Comma-separated `repr` of dict entries. -/
def pyReprFields : List (String × Json) → String
  | [] => ""
  | [(k, v)] => "\x27" ++ k ++ "\x27: " ++ pyRepr v
  | (k, v) :: rest => "\x27" ++ k ++ "\x27: " ++ pyRepr v ++ ", " ++ pyReprFields rest

end

/-- Python `str()`: a string interpolates as itself, other values via repr. -/
def pyStr : Json → String
  | Json.str s => s
  | j => pyRepr j

/-- Is the first list a prefix of the second? -/
def subAt : List Char → List Char → Bool
  | [], _ => true
  | _ :: _, [] => false
  | n :: ns, h :: hs => n == h && subAt ns hs

/-- Does the needle occur contiguously in the haystack? -/
def subSearch (needle : List Char) : List Char → Bool
  | [] => subAt needle []
  | c :: rest => subAt needle (c :: rest) || subSearch needle rest

/-- Substring test (`needle in haystack` on Python strings). -/
def strContains (haystack needle : String) : Bool :=
  subSearch needle.data haystack.data

/-- Python `d[k] = v` on an association list: replaces the value in place if
the key is present, appends otherwise (the insertion-order semantics of
Python dicts). -/
def assocSet {β : Type} (d : List (String × β)) (k : String) (v : β) :
    List (String × β) :=
  match d with
  | [] => [(k, v)]
  | (a, b) :: rest => if a = k then (k, v) :: rest else (a, b) :: assocSet rest k v

/-- Python `d.update(ps)` on association lists: each pair of `ps`, in order,
is assigned into `d` with `assocSet`. -/
def dictUpdate (d ps : List (String × Json)) : List (String × Json) :=
  ps.foldl (fun acc kv => assocSet acc kv.1 kv.2) d

/-- A row of the normalized table: the record (dict) it was built from. -/
abbrev Row := List (String × Json)

/-- Model of a pandas DataFrame as the data it was constructed from:
either a list of records (list-of-dicts constructor, column set is the key
union) or a plain column of values (list of non-dict values; the positional
column naming is abstracted away since no claim inspects it). -/
inductive DataFrame where
  | ofRecords (rows : List Row) : DataFrame
  | ofValues (col : List Json) : DataFrame

/-- The empty table, `pd.DataFrame()` or `pd.DataFrame([])`. -/
def emptyDF : DataFrame := DataFrame.ofRecords []

/-- Number of rows of the modelled DataFrame. -/
def DataFrame.nRows : DataFrame → Nat
  | DataFrame.ofRecords rows => rows.length
  | DataFrame.ofValues col => col.length

/-- Key flattening of `pd.json_normalize` (pandas `nested_to_record`): nested
dict values are expanded in place with dotted path names; non-dict values
(scalars, lists) are kept as-is under `pre ++ key`. -/
def flattenFields (pre : String) : List (String × Json) → List (String × Json)
  | [] => []
  | (k, Json.obj sub) :: rest =>
      flattenFields (pre ++ k ++ ".") sub ++ flattenFields pre rest
  | (k, v) :: rest => (pre ++ k, v) :: flattenFields pre rest
termination_by fields => sizeOf fields
decreasing_by
  all_goals simp only [Json.obj.sizeOf_spec, List.cons.sizeOf_spec, Prod.mk.sizeOf_spec]
  all_goals omega

/-- The fields of a JSON object, `none` for any other value. -/
def asObjFields : Json → Option (List (String × Json))
  | Json.obj fields => some fields
  | _ => none

/-- Python `==` comparison of a `dict.get` result against the string literal
`"FeatureCollection"` (comparison of a non-string against a string is
`False` in Python). -/
def isFeatureCollectionTag : Option Json → Bool
  | some (Json.str s) => s == "FeatureCollection"
  | _ => false

/-- Model of `pd.DataFrame(xs)` on a Python list `xs`: a list of dicts becomes a
record table; a list of non-dict values becomes a value column.  A list
mixing dicts and non-dicts is modelled conservatively as a conversion
error (no claim exercises that input). -/
def pdDataFrameOfList (xs : List Json) : Except String DataFrame :=
  match xs.mapM asObjFields with
  | some records => Except.ok (DataFrame.ofRecords records)
  | none =>
      if xs.any (fun x => (asObjFields x).isSome) then
        Except.error "ValueError: mixed record and non-record rows"
      else
        Except.ok (DataFrame.ofValues xs)

/-- Model of `pd.json_normalize(xs)` on a Python list `xs`: every element must be a
dict (pandas raises `AttributeError` otherwise); each record is flattened. -/
def jsonNormalizeList (xs : List Json) : Except String DataFrame :=
  match xs.mapM asObjFields with
  | some records => Except.ok (DataFrame.ofRecords (records.map (flattenFields "")))
  | none => Except.error "AttributeError: json_normalize element is not a dict"

/-- One iteration of the FeatureCollection loop in `response_to_dataframe`
(`src/terraclim/utils.py` lines 53-62): build the record
`(id, type, geometry)` from `feature.get`, then `record.update` with the
feature's `properties` when the key is present.  A non-dict feature raises
`AttributeError` at `feature.get`; `record.update` on a non-dict properties
value raises `TypeError` for non-iterables and is modelled as raising for
every non-dict value (Python's iterable-of-pairs update protocol is not
exercised by JSON-shaped data in this repository). -/
def featureRecord : Json → Except String Row
  | Json.obj ff =>
      let base : Row :=
        [("id", (ff.lookup "id").getD Json.null),
         ("type", (ff.lookup "type").getD Json.null),
         ("geometry", (ff.lookup "geometry").getD Json.null)]
      match ff.lookup "properties" with
      | none => Except.ok base
      | some (Json.obj ps) => Except.ok (dictUpdate base ps)
      | some _ => Except.error "TypeError: record.update on non-dict properties"
  | _ => Except.error "AttributeError: feature has no attribute get"

/-- The FeatureCollection loop over the `features` list, first error wins. -/
def featureRecords : List Json → Except String (List Row)
  | [] => Except.ok []
  | f :: rest =>
      match featureRecord f with
      | Except.error e => Except.error e
      | Except.ok r =>
          match featureRecords rest with
          | Except.error e => Except.error e
          | Except.ok rs => Except.ok (r :: rs)

/-- The row `featureRecord` produces on a well-formed feature (an object
whose `properties` entry, when present, is an object): the three fixed
columns, dict-updated by the properties. -/
def rowOfFeature : Json → Row
  | Json.obj ff =>
      dictUpdate
        [("id", (ff.lookup "id").getD Json.null),
         ("type", (ff.lookup "type").getD Json.null),
         ("geometry", (ff.lookup "geometry").getD Json.null)]
        (match ff.lookup "properties" with
         | some (Json.obj ps) => ps
         | _ => [])
  | _ => []

/-- The body of the `try` block of `response_to_dataframe`
(`src/terraclim/utils.py` lines 48-77), on a truthy input:
* a dict whose `type` is the string `"FeatureCollection"` goes through the
  feature loop (`features` defaults to `[]` when absent; a present non-list
  `features` value either iterates emptily — empty string or empty dict —
  or raises);
* any other dict is wrapped in a one-element list and handed to
  `pd.json_normalize` or `pd.DataFrame` according to `flatten`;
* a list is handed to `pd.json_normalize` or `pd.DataFrame` directly;
* a truthy scalar makes both constructors raise. -/
def convertTruthy (j : Json) (flatten : Bool) : Except String DataFrame :=
  match j with
  | Json.obj fields =>
      if isFeatureCollectionTag (fields.lookup "type") then
        match fields.lookup "features" with
        | none => Except.ok (DataFrame.ofRecords [])
        | some (Json.arr feats) =>
            (featureRecords feats).map DataFrame.ofRecords
        | some (Json.str "") => Except.ok (DataFrame.ofRecords [])
        | some (Json.obj []) => Except.ok (DataFrame.ofRecords [])
        | some _ => Except.error "TypeError: features value is not iterable as features"
      else if flatten then
        Except.ok (DataFrame.ofRecords [flattenFields "" fields])
      else
        Except.ok (DataFrame.ofRecords [fields])
  | Json.arr xs => if flatten then jsonNormalizeList xs else pdDataFrameOfList xs
  | _ => Except.error "ValueError: DataFrame constructor not properly called"

/-- Embedding of `response_to_dataframe` (`src/terraclim/utils.py` lines 33-82): falsy
input short-circuits to an empty table; otherwise the conversion runs inside
`try`, and any exception is caught, logged and replaced by an empty table. -/
def response_to_dataframe (response_data : Json) (flatten : Bool) : DataFrame :=
  if !pyTruthy response_data then emptyDF
  else
    match convertTruthy response_data flatten with
    | Except.ok df => df
    | Except.error _ => emptyDF


/-! ## HTTP environment model -/

/-- An HTTP response as seen through the `requests` library: numeric status,
header map, the result of attempting to parse the body as JSON (`none` when
`response.json()` raises), and the raw body text.  `response.ok` is
`status < 400`; `raise_for_status` raises exactly on the 4xx/5xx range. -/
structure HttpResponse where
  status : Nat
  respHeaders : List (String × String)
  body : Option Json
  text : String

/-- Outcome of issuing a request: a transport-level
`requests.exceptions.RequestException`, or a response. -/
inductive NetResult where
  | exc (msg : String) : NetResult
  | resp (r : HttpResponse) : NetResult

/-! ## Error-response interpreter (`src/terraclim/utils.py` lines 108-151)

The second component of the returned pair is `Option Json`: Python `None` on
success, the extracted message (possibly a non-string `detail` value taken
verbatim from the body) on failure.  The code after the first
`return False, error_msg` (lines 152-166 of the source) is unreachable and
is not modelled. -/

/-- Does the parsed body carry the known server-side defect signature: a dict
with a key starting with the serialized `AttributeError` class name? -/
def attrErrorSignature : Json → Bool
  | Json.obj fields =>
      fields.any (fun kv => ("<class \x27AttributeError\x27>").isPrefixOf kv.1)
  | _ => false

/-- Is the parsed body a JSON object or array? -/
def isObjOrArr : Json → Bool
  | Json.obj _ => true
  | Json.arr _ => true
  | _ => false

/-- Embedding of `handle_error_response` (`src/terraclim/utils.py` lines 108-151). -/
def handle_error_response (response : HttpResponse) : Bool × Option Json :=
  let contentType := (response.respHeaders.lookup "content-type").getD ""
  if strContains contentType "text/html" then
    (false, some (Json.str "Received HTML response instead of JSON"))
  else
    match response.body with
    | none => (false, some (Json.str "Invalid JSON response"))
    | some data =>
      if attrErrorSignature data then
        (false, some (Json.str "Authentication service temporarily unavailable"))
      else if response.status < 400 then
        if isObjOrArr data then (true, none)
        else (false, some (Json.str "Invalid response format"))
      else
        match data with
        | Json.obj fields =>
            (false, some ((fields.lookup "detail").getD (Json.str (pyRepr data))))
        | _ => (false, some (Json.str (pyStr data)))

/-- The older top-level `utils.py` variant of `handle_error_response`
(`src/utils.py` lines 84-107), kept for comparison: it checks `response.ok`
first and never inspects the content type.  The spec's §4.3 error
interpreter is the `terraclim` variant above; §9 directs readers to the most
recent variant when snapshots diverge. -/
def handle_error_response_legacy (response : HttpResponse) : Bool × Option Json :=
  if response.status < 400 then (true, none)
  else
    match response.body with
    | none =>
        (false, some (Json.str (if response.text != "" then response.text
                                else "HTTP " ++ toString response.status)))
    | some data =>
      match data with
      | Json.obj fields =>
          (false, some ((fields.lookup "detail").getD
            ((fields.lookup "message").getD (Json.str (pyRepr data)))))
      | _ => (false, some (Json.str (pyStr data)))

/-! ## Session / authentication (`src/terraclim/auth.py`)

The stored tokens are `Option Json`: `data.get("access")` can deposit any
JSON value (or `None`) into `self.access_token`.  Every operation returns a
`CallOutcome`: the Python-level result (`Except.error` models an uncaught
exception), the session state after the call, and whether an HTTP request
was issued. -/

structure AuthState where
  access_token : Option Json
  refresh_token : Option Json
  headers : List (String × String)

/-- Header map installed by `TerraCLIMAuth.__init__`. -/
def initHeaders : List (String × String) :=
  [("Content-Type", "application/json"), ("Accept", "application/json")]

/-- Session state after `TerraCLIMAuth.__init__`. -/
def initState : AuthState :=
  { access_token := none, refresh_token := none, headers := initHeaders }

/-- Result of calling a session method. -/
structure CallOutcome where
  result : Except String Bool
  state : AuthState
  requestMade : Bool

/-- Python `a or b` on optional strings: the right operand is taken when the
left is `None` or empty. -/
def pyOrStr (a b : Option String) : Option String :=
  match a with
  | none => b
  | some s => if s = "" then b else some s

/-- Is an optional string falsy (`not x` in Python): absent or empty? -/
def strOptFalsy : Option String → Bool
  | none => true
  | some s => s == ""

/-- Embedding of `TerraCLIMAuth.login` (`src/terraclim/auth.py` lines 24-82).
Arguments and the two environment variables are optional strings; `net` is
the outcome the network would produce for the POST to the token endpoint. -/
def login (st : AuthState) (username password envUser envPass : Option String)
    (net : NetResult) : CallOutcome :=
  let u := pyOrStr username envUser
  let p := pyOrStr password envPass
  if strOptFalsy u || strOptFalsy p then
    { result := Except.error
        "ValueError: Username and password must be provided either as arguments or environment variables",
      state := st, requestMade := false }
  else
    match net with
    | NetResult.exc _ => { result := Except.ok false, state := st, requestMade := true }
    | NetResult.resp r =>
      match r.body with
      | none => { result := Except.ok false, state := st, requestMade := true }
      | some data =>
        if r.status ≥ 400 then
          { result := Except.ok false, state := st, requestMade := true }
        else
          match data with
          | Json.obj fields =>
            let acc := fields.lookup "access"
            let st1 := { st with access_token := acc,
                                 refresh_token := fields.lookup "refresh" }
            let newHeaders :=
              assocSet st1.headers "Authorization" ("Bearer " ++ pyStr (acc.getD Json.null))
            if pyTruthyOpt acc then
              { result := Except.ok true,
                state := { st1 with headers := newHeaders },
                requestMade := true }
            else
              { result := Except.ok false, state := st1, requestMade := true }
          | _ => { result := Except.ok false, state := st, requestMade := true }

/-- Embedding of `TerraCLIMAuth.get_headers` (`src/terraclim/auth.py` lines 84-91). -/
def get_headers (st : AuthState) : List (String × String) := st.headers

/-- Embedding of `TerraCLIMAuth.is_authenticated` (`src/terraclim/auth.py` lines 93-100). -/
def is_authenticated (st : AuthState) : Bool := pyTruthyOpt st.access_token

/-- Embedding of `TerraCLIMAuth.refresh_tokens` (`src/terraclim/auth.py` lines 102-141).
`response.raise_for_status()` raises `HTTPError` (a `RequestException`, hence
caught) on 4xx/5xx.  A body that fails to parse raises
`requests.exceptions.JSONDecodeError`, a `RequestException` in the requests
versions this code targets, hence also caught.  `tokens.get` on a parsed
non-dict body raises an uncaught `AttributeError`. -/
def refresh_tokens (st : AuthState) (net : NetResult) : CallOutcome :=
  if !pyTruthyOpt st.refresh_token then
    { result := Except.ok false, state := st, requestMade := false }
  else
    match net with
    | NetResult.exc _ => { result := Except.ok false, state := st, requestMade := true }
    | NetResult.resp r =>
      if r.status ≥ 400 then
        { result := Except.ok false, state := st, requestMade := true }
      else
        match r.body with
        | none => { result := Except.ok false, state := st, requestMade := true }
        | some (Json.obj tokens) =>
          let acc := tokens.lookup "access"
          let st1 := { st with access_token := acc,
                               refresh_token := tokens.lookup "refresh" }
          let newHeaders :=
            assocSet st1.headers "Authorization" ("Bearer " ++ pyStr (acc.getD Json.null))
          if pyTruthyOpt acc then
            { result := Except.ok true,
              state := { st1 with headers := newHeaders },
              requestMade := true }
          else
            { result := Except.ok false, state := st1, requestMade := true }
        | some _ =>
          { result := Except.error "AttributeError: tokens.get on non-dict body",
            state := st, requestMade := true }

/-- Did a call return Python `True`? -/
def succeeded (out : CallOutcome) : Bool :=
  match out.result with
  | Except.ok true => true
  | _ => false

/-- One session operation with all of its inputs (arguments, environment,
and the network's behaviour for the request it would issue). -/
inductive AuthOp where
  | loginOp (username password envUser envPass : Option String) (net : NetResult) : AuthOp
  | refreshOp (net : NetResult) : AuthOp

/-- Apply one operation to the session. -/
def applyOp (st : AuthState) : AuthOp → CallOutcome
  | AuthOp.loginOp u p eu ep net => login st u p eu ep net
  | AuthOp.refreshOp net => refresh_tokens st net

/-- Run a sequence of session operations; the Boolean records whether any
call in the sequence returned `True`. -/
def runOps (st : AuthState) : List AuthOp → AuthState × Bool
  | [] => (st, false)
  | op :: rest =>
      let out := applyOp st op
      let res := runOps out.state rest
      (res.1, succeeded out || res.2)


/-- Invariant tying the session's header map to whether any call has
succeeded so far: the two fixed headers are always present, and
`Authorization` holds a bearer value exactly when some call has returned
`True`. -/
def HeaderInv (st : AuthState) (succ : Bool) : Prop :=
  (List.lookup "Content-Type" st.headers).isSome = true ∧
  (List.lookup "Accept" st.headers).isSome = true ∧
  (succ = true → ∃ t, List.lookup "Authorization" st.headers = some ("Bearer " ++ t)) ∧
  (succ = false → List.lookup "Authorization" st.headers = none)

/-! ## Helper lemmas -/

theorem lookup_assocSet_self {β : Type} (d : List (String × β)) (k : String) (v : β) :
    List.lookup k (assocSet d k v) = some v := by
  induction d with
  | nil => simp [assocSet, List.lookup]
  | cons kv rest ih =>
    obtain ⟨a, b⟩ := kv
    by_cases h : a = k
    · simp [assocSet, h, List.lookup]
    · simp [assocSet, h, List.lookup, beq_eq_false_iff_ne.mpr (Ne.symm h), ih]

theorem lookup_assocSet_ne {β : Type} (d : List (String × β)) (k k' : String) (v : β)
    (h : k' ≠ k) : List.lookup k' (assocSet d k v) = List.lookup k' d := by
  induction d with
  | nil => simp [assocSet, List.lookup, beq_eq_false_iff_ne.mpr h]
  | cons kv rest ih =>
    obtain ⟨a, b⟩ := kv
    by_cases ha : a = k
    · subst ha
      simp [assocSet, List.lookup, beq_eq_false_iff_ne.mpr h]
    · cases hk : (k' == a) <;> simp [assocSet, ha, List.lookup, hk, ih]

/-! ## Claim theorems -/

/-- C2: `response_to_dataframe` is total (its type returns a `DataFrame`, not
an exception): every falsy input yields the empty, zero-row table, and
whenever the conversion of a truthy input raises internally (modelled by
`convertTruthy` returning `Except.error`), the caught exception is replaced
by the empty table. -/
theorem response_to_dataframe_never_raises (j : Json) (flatten : Bool) :
    (pyTruthy j = false →
      response_to_dataframe j flatten = emptyDF ∧
      (response_to_dataframe j flatten).nRows = 0) ∧
    (∀ e, convertTruthy j flatten = Except.error e →
      response_to_dataframe j flatten = emptyDF) := by
  refine ⟨fun h => ?_, fun e he => ?_⟩
  · simp [response_to_dataframe, h, emptyDF, DataFrame.nRows]
  · rcases Bool.eq_false_or_eq_true (pyTruthy j) with hp | hp <;>
      simp [response_to_dataframe, hp, he]

/-- Witness for C2 at the empty list (falsy) and at a truthy scalar, whose
conversion raises in both pandas constructors. -/
theorem response_to_dataframe_never_raises_witness :
    response_to_dataframe (Json.arr []) true = emptyDF ∧
    response_to_dataframe (Json.num 5) false = emptyDF := by
  constructor
  · exact ((response_to_dataframe_never_raises (Json.arr []) true).1 rfl).1
  · exact (response_to_dataframe_never_raises (Json.num 5) false).2
      "ValueError: DataFrame constructor not properly called" rfl

/-- C3: when neither the arguments nor the environment yield both a truthy
username and a truthy password, `login` raises `ValueError` with no request
issued and the session state unchanged, whatever the network would do. -/
theorem login_missing_credentials (st : AuthState)
    (username password envUser envPass : Option String) (net : NetResult)
    (h : strOptFalsy (pyOrStr username envUser) = true ∨
         strOptFalsy (pyOrStr password envPass) = true) :
    login st username password envUser envPass net =
      { result := Except.error "ValueError: Username and password must be provided either as arguments or environment variables",
        state := st, requestMade := false } := by
  rcases h with h | h <;> simp [login, h]

/-- Witness for C3: a fresh session, no arguments, no environment. -/
theorem login_missing_credentials_witness :
    login initState none none none none (NetResult.exc "unreachable") =
      { result := Except.error "ValueError: Username and password must be provided either as arguments or environment variables",
        state := initState, requestMade := false } :=
  login_missing_credentials initState none none none none (NetResult.exc "unreachable")
    (Or.inl rfl)

/-- C7: any response whose content-type header contains `text/html` is
classified as a failure with the fixed message, regardless of status. -/
theorem handle_error_response_html (response : HttpResponse)
    (h : strContains ((response.respHeaders.lookup "content-type").getD "") "text/html"
          = true) :
    handle_error_response response
      = (false, some (Json.str "Received HTML response instead of JSON")) := by
  simp [handle_error_response, h]

/-- Witness for C7: a 2xx response with an HTML content type and a perfectly
parseable JSON body is still classified as failure. -/
theorem handle_error_response_html_witness :
    handle_error_response
      ⟨200, [("content-type", "text/html; charset=utf-8")],
       some (Json.obj [("ok", Json.bool true)]), "<html/>"⟩
      = (false, some (Json.str "Received HTML response instead of JSON")) :=
  handle_error_response_html _ rfl

theorem flattenFields_of_flat (fields : List (String × Json))
    (h : ∀ kv ∈ fields, asObjFields kv.2 = none) :
    flattenFields "" fields = fields := by
  induction fields with
  | nil => simp [flattenFields]
  | cons kv rest ih =>
    obtain ⟨k, v⟩ := kv
    have hv := h (k, v) (by simp)
    have hrest := ih (fun kv hkv => h kv (by simp [hkv]))
    cases v <;> simp [asObjFields] at hv <;>
      simp [flattenFields, hrest]

/-- C8 (amended): for a non-empty JSON object that does not carry the
`FeatureCollection` type tag and none of whose values is a nested object,
`response_to_dataframe` yields the same single-row table with `flatten`
true or false, namely the one-row table of the object itself. -/
theorem response_to_dataframe_flatten_idempotent_on_flat
    (fields : List (String × Json))
    (hne : fields ≠ [])
    (hfc : isFeatureCollectionTag (fields.lookup "type") = false)
    (hflat : ∀ kv ∈ fields, asObjFields kv.2 = none) :
    response_to_dataframe (Json.obj fields) true
      = response_to_dataframe (Json.obj fields) false ∧
    response_to_dataframe (Json.obj fields) false = DataFrame.ofRecords [fields] ∧
    (response_to_dataframe (Json.obj fields) true).nRows = 1 := by
  have htruthy : pyTruthy (Json.obj fields) = true := by
    simp [pyTruthy, hne]
  have hflatten := flattenFields_of_flat fields hflat
  refine ⟨?_, ?_, ?_⟩ <;>
    simp [response_to_dataframe, htruthy, convertTruthy, hfc, hflatten, DataFrame.nRows]

/-- Counterexample for C8 as stated: `obj [type ↦ "FeatureCollection"]` is a
JSON object none of whose values is a nested object, yet both flatten modes
route it through the FeatureCollection branch and produce a zero-row table,
not the claimed single row. -/
theorem response_to_dataframe_flatten_fc_tag_cex :
    response_to_dataframe (Json.obj [("type", Json.str "FeatureCollection")]) true
      = DataFrame.ofRecords [] ∧
    response_to_dataframe (Json.obj [("type", Json.str "FeatureCollection")]) false
      = DataFrame.ofRecords [] ∧
    (response_to_dataframe (Json.obj [("type", Json.str "FeatureCollection")]) true).nRows
      ≠ 1 := by
  refine ⟨rfl, rfl, ?_⟩
  intro h
  have h0 : (response_to_dataframe
      (Json.obj [("type", Json.str "FeatureCollection")]) true).nRows = 0 := rfl
  omega

/-- Witness for C8 (amended) at the flat object from the spec's example. -/
theorem response_to_dataframe_flatten_idempotent_on_flat_witness :
    response_to_dataframe (Json.obj [("a", Json.num 1)]) true
      = response_to_dataframe (Json.obj [("a", Json.num 1)]) false ∧
    response_to_dataframe (Json.obj [("a", Json.num 1)]) false
      = DataFrame.ofRecords [[("a", Json.num 1)]] := by
  have h := response_to_dataframe_flatten_idempotent_on_flat [("a", Json.num 1)]
    (by simp) rfl (by intro kv hkv; simp at hkv; simp [hkv, asObjFields])
  exact ⟨h.1, h.2.1⟩

theorem featureRecords_of_wf (feats : List Json)
    (hwf : ∀ f ∈ feats, ∃ ff, f = Json.obj ff ∧
      (ff.lookup "properties" = none ∨
       ∃ ps, ff.lookup "properties" = some (Json.obj ps))) :
    featureRecords feats = Except.ok (feats.map rowOfFeature) := by
  induction feats with
  | nil => simp [featureRecords]
  | cons f rest ih =>
    obtain ⟨ff, hf, hp⟩ := hwf f (by simp)
    have hrec : featureRecord f = Except.ok (rowOfFeature f) := by
      subst hf
      rcases hp with hp | ⟨ps, hp⟩ <;> simp [featureRecord, rowOfFeature, hp, dictUpdate]
    have hrest := ih (fun g hg => hwf g (by simp [hg]))
    simp [featureRecords, hrec, hrest]

/-- C1 (amended): a FeatureCollection object with a well-formed `features`
array (each feature an object whose `properties` entry, when present, is an
object) normalizes, for either value of `flatten`, to one row per feature in
array order; each row is the fixed `(id, type, geometry)` record of its
feature dict-updated by the feature's properties, so a properties key named
`id`, `type` or `geometry` overwrites the fixed column. -/
theorem response_to_dataframe_featureCollection_rows (flatten : Bool)
    (fields : List (String × Json)) (feats : List Json)
    (htype : fields.lookup "type" = some (Json.str "FeatureCollection"))
    (hfeats : fields.lookup "features" = some (Json.arr feats))
    (hwf : ∀ f ∈ feats, ∃ ff, f = Json.obj ff ∧
      (ff.lookup "properties" = none ∨
       ∃ ps, ff.lookup "properties" = some (Json.obj ps))) :
    response_to_dataframe (Json.obj fields) flatten
      = DataFrame.ofRecords (feats.map rowOfFeature) ∧
    (response_to_dataframe (Json.obj fields) flatten).nRows = feats.length := by
  have hne : fields ≠ [] := by
    intro h
    subst h
    simp [List.lookup] at htype
  have htruthy : pyTruthy (Json.obj fields) = true := by simp [pyTruthy, hne]
  have hrecords := featureRecords_of_wf feats hwf
  have htag : isFeatureCollectionTag (fields.lookup "type") = true := by
    simp [htype, isFeatureCollectionTag]
  constructor <;>
    simp [response_to_dataframe, htruthy, convertTruthy, htag, hfeats, hrecords,
      DataFrame.nRows, Except.map]

/-- Counterexample for C1 as stated: a feature with `id = 1` whose
`properties` object also carries an `id` key.  The produced row's `id`
column holds the properties value `99`, not the feature's own `id` value
`1`, and no additional column is created for the properties key. -/
theorem response_to_dataframe_featureCollection_rows_cex :
    response_to_dataframe
      (Json.obj [("type", Json.str "FeatureCollection"),
                 ("features", Json.arr [Json.obj
                   [("id", Json.num 1),
                    ("properties", Json.obj [("id", Json.num 99)])]])]) false
      = DataFrame.ofRecords
          [[("id", Json.num 99), ("type", Json.null), ("geometry", Json.null)]] ∧
    List.lookup "id"
        ([("id", Json.num 99), ("type", Json.null), ("geometry", Json.null)] : Row)
      = some (Json.num 99) ∧
    Json.num 99 ≠ Json.num 1 := by
  refine ⟨rfl, rfl, ?_⟩
  simp

/-- Witness for C1 (amended) at the spec's own example FeatureCollection. -/
theorem response_to_dataframe_featureCollection_rows_witness :
    response_to_dataframe
      (Json.obj [("type", Json.str "FeatureCollection"),
                 ("features", Json.arr [Json.obj
                   [("id", Json.num 1), ("type", Json.str "Feature"),
                    ("geometry", Json.obj [("type", Json.str "Point")]),
                    ("properties", Json.obj [("name", Json.str "x")])]])]) true
      = DataFrame.ofRecords
          [[("id", Json.num 1), ("type", Json.str "Feature"),
            ("geometry", Json.obj [("type", Json.str "Point")]),
            ("name", Json.str "x")]] := by
  have h := response_to_dataframe_featureCollection_rows true
    [("type", Json.str "FeatureCollection"),
     ("features", Json.arr [Json.obj
       [("id", Json.num 1), ("type", Json.str "Feature"),
        ("geometry", Json.obj [("type", Json.str "Point")]),
        ("properties", Json.obj [("name", Json.str "x")])]])]
    [Json.obj
       [("id", Json.num 1), ("type", Json.str "Feature"),
        ("geometry", Json.obj [("type", Json.str "Point")]),
        ("properties", Json.obj [("name", Json.str "x")])]]
    rfl rfl ?_
  · exact h.1.trans (by rfl)
  · intro f hf
    simp at hf
    subst hf
    exact ⟨_, rfl, Or.inr ⟨[("name", Json.str "x")], rfl⟩⟩

/-- C4 (amended): with resolvable credentials, `login` never raises — its
result is Python `True` or `False` — and it returns `True` exactly when the
reply is a response with a non-error status (`requests`' `response.ok`,
i.e. status < 400), a parseable JSON-object body, and a truthy `access`
field.  Transport errors, unparsable bodies and error statuses therefore
all yield `False`; a 3xx reply, however, counts as `ok`. -/
theorem login_reply_handling (st : AuthState)
    (username password envUser envPass : Option String) (net : NetResult)
    (hcred : (strOptFalsy (pyOrStr username envUser)
              || strOptFalsy (pyOrStr password envPass)) = false) :
    ((login st username password envUser envPass net).result = Except.ok true ∨
     (login st username password envUser envPass net).result = Except.ok false) ∧
    ((login st username password envUser envPass net).result = Except.ok true ↔
      ∃ r fields, net = NetResult.resp r ∧ r.status < 400 ∧
        r.body = some (Json.obj fields) ∧
        pyTruthyOpt (fields.lookup "access") = true) := by
  cases net with
  | exc m =>
    have hres : (login st username password envUser envPass (NetResult.exc m)).result
        = Except.ok false := by simp [login, hcred]
    refine ⟨Or.inr hres, hres ▸ ?_, fun h => ?_⟩
    · intro h
      exact absurd h (by simp)
    · obtain ⟨r', fields', heq, hrest⟩ := h
      cases heq
  | resp r =>
    rcases hb : r.body with _ | data
    · have hres : (login st username password envUser envPass (NetResult.resp r)).result
          = Except.ok false := by simp [login, hcred, hb]
      refine ⟨Or.inr hres, hres ▸ fun h => absurd h (by simp), fun h => ?_⟩
      obtain ⟨r', fields', heq, hs', hb', hacc'⟩ := h
      injection heq with hrr
      subst hrr
      rw [hb] at hb'
      simp at hb'
    · by_cases hs : r.status ≥ 400
      · have hres : (login st username password envUser envPass (NetResult.resp r)).result
            = Except.ok false := by simp [login, hcred, hb, hs]
        refine ⟨Or.inr hres, hres ▸ fun h => absurd h (by simp), fun h => ?_⟩
        obtain ⟨r', fields', heq, hs', hb', hacc'⟩ := h
        injection heq with hrr
        subst hrr
        omega
      · rcases data with _ | b | n | s | xs | fields
        case neg.obj =>
          by_cases hacc : pyTruthyOpt (fields.lookup "access") = true
          · have hres : (login st username password envUser envPass (NetResult.resp r)).result
                = Except.ok true := by simp [login, hcred, hb, hs, hacc]
            exact ⟨Or.inl hres,
              fun _ => ⟨r, fields, rfl, by omega, hb, hacc⟩,
              fun _ => hres⟩
          · have hres : (login st username password envUser envPass (NetResult.resp r)).result
                = Except.ok false := by simp [login, hcred, hb, hs, hacc]
            refine ⟨Or.inr hres, hres ▸ fun h => absurd h (by simp), fun h => ?_⟩
            obtain ⟨r', fields', heq, hs', hb', hacc'⟩ := h
            injection heq with hrr
            subst hrr
            rw [hb] at hb'
            simp at hb'
            subst hb'
            exact absurd hacc' hacc
        all_goals
          have hres : (login st username password envUser envPass (NetResult.resp r)).result
              = Except.ok false := by simp [login, hcred, hb, hs]
        all_goals
          refine ⟨Or.inr hres, hres ▸ fun h => absurd h (by simp), fun h => ?_⟩
          obtain ⟨r', fields', heq, hs', hb', hacc'⟩ := h
          injection heq with hrr
          subst hrr
          rw [hb] at hb'
          simp at hb'

/-- Counterexample for C4 as stated: a 304 reply (not 2xx, but `ok` for
`requests`) whose JSON body carries an `access` token makes `login` return
`True`, where the claim requires `False` for every non-2xx status. -/
theorem login_redirect_status_cex :
    (login initState (some "u") (some "p") none none
      (NetResult.resp ⟨304, [], some (Json.obj [("access", Json.str "AAA")]), ""⟩)).result
      = Except.ok true ∧
    ¬(200 ≤ 304 ∧ 304 ≤ 299) := ⟨rfl, by omega⟩

/-- Witness for C4 (amended): a successful 200 login and a failing
unparsable-body login, through `login_reply_handling`. -/
theorem login_reply_handling_witness :
    (login initState (some "u") (some "p") none none
      (NetResult.resp ⟨200, [], some (Json.obj
        [("access", Json.str "AAA"), ("refresh", Json.str "RRR")]), ""⟩)).result
      = Except.ok true ∧
    ((login initState (some "u") (some "p") none none
      (NetResult.resp ⟨500, [], none, "gateway error"⟩)).result = Except.ok true ∨
     (login initState (some "u") (some "p") none none
      (NetResult.resp ⟨500, [], none, "gateway error"⟩)).result = Except.ok false) := by
  constructor
  · exact (login_reply_handling initState (some "u") (some "p") none none _ rfl).2.mpr
      ⟨⟨200, [], some (Json.obj [("access", Json.str "AAA"), ("refresh", Json.str "RRR")]),
        ""⟩, [("access", Json.str "AAA"), ("refresh", Json.str "RRR")],
        rfl, by decide, rfl, rfl⟩
  · exact (login_reply_handling initState (some "u") (some "p") none none _ rfl).1

/-- C6 (amended): `refresh_tokens` returns `False` without raising and
without a request when no refresh token is stored; with a stored token it
returns `False` without raising on a transport error, an HTTP error status
(4xx/5xx — `raise_for_status`, caught), or an unparsable body; on a
non-error-status JSON-object body it returns `True` exactly when the body's
`access` value is truthy, in which case the stored tokens and the
`Authorization` header are updated.  A 3xx status, however, does not raise
and is treated like a success status. -/
theorem refresh_tokens_reply_handling (st : AuthState) (net : NetResult) :
    (pyTruthyOpt st.refresh_token = false →
      refresh_tokens st net
        = { result := Except.ok false, state := st, requestMade := false }) ∧
    (pyTruthyOpt st.refresh_token = true →
      (∀ m, net = NetResult.exc m →
        refresh_tokens st net
          = { result := Except.ok false, state := st, requestMade := true }) ∧
      (∀ r, net = NetResult.resp r → r.status ≥ 400 →
        refresh_tokens st net
          = { result := Except.ok false, state := st, requestMade := true }) ∧
      (∀ r, net = NetResult.resp r → r.status < 400 → r.body = none →
        refresh_tokens st net
          = { result := Except.ok false, state := st, requestMade := true }) ∧
      (∀ r tokens, net = NetResult.resp r → r.status < 400 →
        r.body = some (Json.obj tokens) →
        ((refresh_tokens st net).result = Except.ok true
          ↔ pyTruthyOpt (tokens.lookup "access") = true) ∧
        (pyTruthyOpt (tokens.lookup "access") = true →
          (refresh_tokens st net).state.access_token = tokens.lookup "access" ∧
          (refresh_tokens st net).state.refresh_token = tokens.lookup "refresh" ∧
          List.lookup "Authorization" (refresh_tokens st net).state.headers
            = some ("Bearer " ++ pyStr ((tokens.lookup "access").getD Json.null))))) := by
  constructor
  · intro h
    simp [refresh_tokens, h]
  · intro h
    refine ⟨?_, ?_, ?_, ?_⟩
    · rintro m rfl
      simp [refresh_tokens, h]
    · rintro r rfl hs
      simp [refresh_tokens, h, hs]
    · rintro r rfl hs hb
      have hs' : ¬ r.status ≥ 400 := by omega
      simp [refresh_tokens, h, hs', hb]
    · rintro r tokens rfl hs hb
      have hs' : ¬ r.status ≥ 400 := by omega
      by_cases hacc : pyTruthyOpt (tokens.lookup "access") = true
      · refine ⟨⟨fun _ => hacc, fun _ => ?_⟩, fun _ => ⟨?_, ?_, ?_⟩⟩ <;>
          simp [refresh_tokens, h, hs', hb, hacc, lookup_assocSet_self]
      · have hres : (refresh_tokens st (NetResult.resp r)).result = Except.ok false := by
          simp [refresh_tokens, h, hs', hb, hacc]
        refine ⟨⟨fun htrue => ?_, fun hacc' => absurd hacc' hacc⟩,
          fun hacc' => absurd hacc' hacc⟩
        rw [hres] at htrue
        simp at htrue

/-- Counterexample for C6 as stated: a 304 refresh reply (non-2xx, but not
raised by `raise_for_status`) carrying an `access` token makes
`refresh_tokens` return `True`, where the claim requires `False` for any
non-2xx status. -/
theorem refresh_tokens_redirect_status_cex :
    (refresh_tokens
      { access_token := some (Json.str "A"), refresh_token := some (Json.str "R"),
        headers := initHeaders }
      (NetResult.resp ⟨304, [], some (Json.obj [("access", Json.str "B")]), ""⟩)).result
      = Except.ok true ∧
    ¬(200 ≤ 304 ∧ 304 ≤ 299) := ⟨rfl, by omega⟩

/-- Witness for C6 (amended): a fresh session (no refresh token) fails
immediately with no request issued. -/
theorem refresh_tokens_reply_handling_witness :
    refresh_tokens initState (NetResult.exc "connection refused")
      = { result := Except.ok false, state := initState, requestMade := false } :=
  (refresh_tokens_reply_handling initState (NetResult.exc "connection refused")).1 rfl

/-- C9: when the refresh endpoint replies with a success status and a JSON
object lacking `access`, the call returns `False` but has already
overwritten both stored tokens, while the header map — including any
previously set `Authorization` bearer header — is left untouched: afterwards
`is_authenticated` is false while `get_headers` still carries the stale
header. -/
theorem refresh_tokens_nonatomic_failure (st : AuthState) (r : HttpResponse)
    (tokens : List (String × Json)) (a : String)
    (hrt : pyTruthyOpt st.refresh_token = true)
    (hs : r.status < 400)
    (hb : r.body = some (Json.obj tokens))
    (hnoacc : tokens.lookup "access" = none)
    (hauth : List.lookup "Authorization" st.headers = some a) :
    (refresh_tokens st (NetResult.resp r)).result = Except.ok false ∧
    (refresh_tokens st (NetResult.resp r)).state.access_token = none ∧
    (refresh_tokens st (NetResult.resp r)).state.refresh_token
      = tokens.lookup "refresh" ∧
    is_authenticated (refresh_tokens st (NetResult.resp r)).state = false ∧
    get_headers (refresh_tokens st (NetResult.resp r)).state = st.headers ∧
    List.lookup "Authorization" (get_headers (refresh_tokens st (NetResult.resp r)).state)
      = some a := by
  have hs' : ¬ r.status ≥ 400 := by omega
  have hnoaccT : pyTruthyOpt (List.lookup "access" tokens) = false := by
    simp [hnoacc, pyTruthyOpt]
  have hnone : pyTruthyOpt (none : Option Json) = false := rfl
  refine ⟨?_, ?_, ?_, ?_, ?_, ?_⟩ <;>
    simp [refresh_tokens, hrt, hs', hb, hnoacc, hnoaccT, hnone, is_authenticated,
      get_headers, hauth]

/-- Witness for C9: a logged-in-looking session whose refresh reply is a 200
JSON object with only a new refresh token and no access token. -/
theorem refresh_tokens_nonatomic_failure_witness :
    (refresh_tokens
        { access_token := some (Json.str "A"), refresh_token := some (Json.str "R"),
          headers := assocSet initHeaders "Authorization" "Bearer A" }
        (NetResult.resp ⟨200, [], some (Json.obj [("refresh", Json.str "R2")]), ""⟩)).result
      = Except.ok false ∧
    is_authenticated
        (refresh_tokens
          { access_token := some (Json.str "A"), refresh_token := some (Json.str "R"),
            headers := assocSet initHeaders "Authorization" "Bearer A" }
          (NetResult.resp ⟨200, [], some (Json.obj [("refresh", Json.str "R2")]), ""⟩)).state
      = false ∧
    List.lookup "Authorization"
        (get_headers (refresh_tokens
          { access_token := some (Json.str "A"), refresh_token := some (Json.str "R"),
            headers := assocSet initHeaders "Authorization" "Bearer A" }
          (NetResult.resp ⟨200, [], some (Json.obj [("refresh", Json.str "R2")]), ""⟩)).state)
      = some "Bearer A" := by
  have h := refresh_tokens_nonatomic_failure
    { access_token := some (Json.str "A"), refresh_token := some (Json.str "R"),
      headers := assocSet initHeaders "Authorization" "Bearer A" }
    ⟨200, [], some (Json.obj [("refresh", Json.str "R2")]), ""⟩
    [("refresh", Json.str "R2")] "Bearer A" rfl (by decide) rfl rfl rfl
  exact ⟨h.1, h.2.2.2.1, h.2.2.2.2.2⟩

/-- C10: a successful refresh whose reply carries `access` but no `refresh`
field returns `True` yet unconditionally overwrites the stored refresh token
with `None`, so any immediately following `refresh_tokens` call fails with
no request issued. -/
theorem refresh_tokens_success_drops_refresh_token (st : AuthState)
    (r : HttpResponse) (tokens : List (String × Json))
    (hrt : pyTruthyOpt st.refresh_token = true)
    (hs : r.status < 400)
    (hb : r.body = some (Json.obj tokens))
    (hacc : pyTruthyOpt (tokens.lookup "access") = true)
    (hnoref : tokens.lookup "refresh" = none) :
    (refresh_tokens st (NetResult.resp r)).result = Except.ok true ∧
    (refresh_tokens st (NetResult.resp r)).state.refresh_token = none ∧
    (∀ net2, refresh_tokens (refresh_tokens st (NetResult.resp r)).state net2
      = { result := Except.ok false,
          state := (refresh_tokens st (NetResult.resp r)).state,
          requestMade := false }) := by
  have hs' : ¬ r.status ≥ 400 := by omega
  have hstate : (refresh_tokens st (NetResult.resp r)).state.refresh_token = none := by
    simp [refresh_tokens, hrt, hs', hb, hacc, hnoref]
  refine ⟨by simp [refresh_tokens, hrt, hs', hb, hacc], hstate, fun net2 => ?_⟩
  generalize hst2 : (refresh_tokens st (NetResult.resp r)).state = st2 at hstate ⊢
  have h2 : pyTruthyOpt st2.refresh_token = false := by simp [hstate, pyTruthyOpt]
  simp [refresh_tokens, h2]

/-- Witness for C10: a 200 refresh reply containing only an access token. -/
theorem refresh_tokens_success_drops_refresh_token_witness :
    (refresh_tokens
        { access_token := some (Json.str "A"), refresh_token := some (Json.str "R"),
          headers := initHeaders }
        (NetResult.resp ⟨200, [], some (Json.obj [("access", Json.str "B")]), ""⟩)).result
      = Except.ok true ∧
    (refresh_tokens
        (refresh_tokens
          { access_token := some (Json.str "A"), refresh_token := some (Json.str "R"),
            headers := initHeaders }
          (NetResult.resp ⟨200, [], some (Json.obj [("access", Json.str "B")]), ""⟩)).state
        (NetResult.exc "later")).result
      = Except.ok false := by
  have h := refresh_tokens_success_drops_refresh_token
    { access_token := some (Json.str "A"), refresh_token := some (Json.str "R"),
      headers := initHeaders }
    ⟨200, [], some (Json.obj [("access", Json.str "B")]), ""⟩
    [("access", Json.str "B")] rfl (by decide) rfl rfl rfl
  refine ⟨h.1, ?_⟩
  rw [h.2.2 (NetResult.exc "later")]

theorem login_headers_cases (st : AuthState) (u p eu ep : Option String)
    (net : NetResult) :
    ((login st u p eu ep net).state.headers = st.headers ∧
      succeeded (login st u p eu ep net) = false) ∨
    (∃ t, (login st u p eu ep net).state.headers
        = assocSet st.headers "Authorization" ("Bearer " ++ t) ∧
      succeeded (login st u p eu ep net) = true) := by
  by_cases hcred : (strOptFalsy (pyOrStr u eu) || strOptFalsy (pyOrStr p ep)) = true
  · left
    simp [login, hcred, succeeded]
  · rw [Bool.not_eq_true] at hcred
    cases net with
    | exc m =>
      left
      simp [login, hcred, succeeded]
    | resp r =>
      rcases hb : r.body with _ | data
      · left
        simp [login, hcred, hb, succeeded]
      · by_cases hs : r.status ≥ 400
        · left
          simp [login, hcred, hb, hs, succeeded]
        · rcases data with _ | b | n | s | xs | fields
          case neg.obj =>
            by_cases hacc : pyTruthyOpt (fields.lookup "access") = true
            · right
              exact ⟨pyStr ((fields.lookup "access").getD Json.null),
                by simp [login, hcred, hb, hs, hacc],
                by simp [login, hcred, hb, hs, hacc, succeeded]⟩
            · left
              simp [login, hcred, hb, hs, hacc, succeeded]
          all_goals left
          all_goals simp [login, hcred, hb, hs, succeeded]

theorem refresh_tokens_headers_cases (st : AuthState) (net : NetResult) :
    ((refresh_tokens st net).state.headers = st.headers ∧
      succeeded (refresh_tokens st net) = false) ∨
    (∃ t, (refresh_tokens st net).state.headers
        = assocSet st.headers "Authorization" ("Bearer " ++ t) ∧
      succeeded (refresh_tokens st net) = true) := by
  by_cases hrt : pyTruthyOpt st.refresh_token = true
  · cases net with
    | exc m =>
      left
      simp [refresh_tokens, hrt, succeeded]
    | resp r =>
      by_cases hs : r.status ≥ 400
      · left
        simp [refresh_tokens, hrt, hs, succeeded]
      · rcases hb : r.body with _ | data
        · left
          simp [refresh_tokens, hrt, hs, hb, succeeded]
        · rcases data with _ | b | n | s | xs | tokens
          case neg.some.obj =>
            by_cases hacc : pyTruthyOpt (tokens.lookup "access") = true
            · right
              exact ⟨pyStr ((tokens.lookup "access").getD Json.null),
                by simp [refresh_tokens, hrt, hs, hb, hacc],
                by simp [refresh_tokens, hrt, hs, hb, hacc, succeeded]⟩
            · left
              simp [refresh_tokens, hrt, hs, hb, hacc, succeeded]
          all_goals left
          all_goals simp [refresh_tokens, hrt, hs, hb, succeeded]
  · rw [Bool.not_eq_true] at hrt
    left
    have h : refresh_tokens st net
        = { result := Except.ok false, state := st, requestMade := false } := by
      simp [refresh_tokens, hrt]
    simp [h, succeeded]

theorem HeaderInv_of_cases (st : AuthState) (succ : Bool) (out : CallOutcome)
    (h : HeaderInv st succ)
    (hc : (out.state.headers = st.headers ∧ succeeded out = false) ∨
          (∃ t, out.state.headers = assocSet st.headers "Authorization" ("Bearer " ++ t) ∧
            succeeded out = true)) :
    HeaderInv out.state (succ || succeeded out) := by
  obtain ⟨hct, hac, hsome, hnone⟩ := h
  rcases hc with ⟨hh, hsucc⟩ | ⟨t, hh, hsucc⟩
  · rw [HeaderInv, hh, hsucc]
    simp only [Bool.or_false]
    exact ⟨hct, hac, hsome, hnone⟩
  · rw [HeaderInv, hh, hsucc]
    simp only [Bool.or_true]
    refine ⟨?_, ?_, fun _ => ⟨t, lookup_assocSet_self st.headers "Authorization" _⟩,
      fun hfalse => by cases hfalse⟩
    · rw [lookup_assocSet_ne st.headers "Authorization" "Content-Type" _ (by decide)]
      exact hct
    · rw [lookup_assocSet_ne st.headers "Authorization" "Accept" _ (by decide)]
      exact hac

theorem runOps_headerInv (ops : List AuthOp) (st : AuthState) (succ0 : Bool)
    (h : HeaderInv st succ0) :
    HeaderInv (runOps st ops).1 (succ0 || (runOps st ops).2) := by
  induction ops generalizing st succ0 with
  | nil => simpa [runOps] using h
  | cons op rest ih =>
    have hstep : HeaderInv (applyOp st op).state (succ0 || succeeded (applyOp st op)) := by
      cases op with
      | loginOp u p eu ep net =>
        exact HeaderInv_of_cases st succ0 _ h (login_headers_cases st u p eu ep net)
      | refreshOp net =>
        exact HeaderInv_of_cases st succ0 _ h (refresh_tokens_headers_cases st net)
    have hrest := ih (applyOp st op).state (succ0 || succeeded (applyOp st op)) hstep
    simpa [runOps, Bool.or_assoc, Bool.or_comm, Bool.or_left_comm] using hrest

/-- C5: after any sequence of `login`/`refresh_tokens` calls on a fresh
session, the header map returned by `get_headers` always contains
`Content-Type` and `Accept`; it contains `Authorization` — holding a
`Bearer` value — exactly when some call in the sequence returned `True`,
and it is absent while no call has succeeded. -/
theorem get_headers_contract (ops : List AuthOp) :
    (List.lookup "Content-Type" (get_headers (runOps initState ops).1)).isSome = true ∧
    (List.lookup "Accept" (get_headers (runOps initState ops).1)).isSome = true ∧
    ((runOps initState ops).2 = true →
      ∃ t, List.lookup "Authorization" (get_headers (runOps initState ops).1)
        = some ("Bearer " ++ t)) ∧
    ((runOps initState ops).2 = false →
      List.lookup "Authorization" (get_headers (runOps initState ops).1) = none) := by
  have hinit : HeaderInv initState false := by
    unfold HeaderInv
    refine ⟨rfl, rfl, fun h => absurd h (by simp), fun _ => rfl⟩
  have h := runOps_headerInv ops initState false hinit
  simpa [get_headers, HeaderInv] using h

/-- Witness for C5: on the empty trace `Authorization` is absent; after one
successful login it is present with the bearer value. -/
theorem get_headers_contract_witness :
    List.lookup "Authorization" (get_headers (runOps initState []).1) = none ∧
    ∃ t, List.lookup "Authorization"
        (get_headers (runOps initState
          [AuthOp.loginOp (some "u") (some "p") none none
            (NetResult.resp ⟨200, [], some (Json.obj
              [("access", Json.str "AAA"), ("refresh", Json.str "RRR")]), ""⟩)]).1)
      = some ("Bearer " ++ t) := by
  constructor
  · exact (get_headers_contract []).2.2.2 rfl
  · exact (get_headers_contract
      [AuthOp.loginOp (some "u") (some "p") none none
        (NetResult.resp ⟨200, [], some (Json.obj
          [("access", Json.str "AAA"), ("refresh", Json.str "RRR")]), ""⟩)]).2.2.1 rfl
